import Mathlib

/-!
Shallow embedding of `src/app.py` (console support-agent demo).

The program consists of a pydantic context schema (`user_info`), three
tool functions (`refund`, `check_issue_type`, `restart_service`) each
gated by an `is_enabled` lambda, a module-level API-key check, and a
console session loop that reads three inputs per turn, builds the
context, and delegates to an external runner.

Python string helpers (`str.strip`, `str.lower`) are modelled for the
ASCII range, which is where they agree with Python's Unicode-aware
versions; all string constants in the program are ASCII.
-/

namespace ConsoleAgent

/-- Python `str.isspace` on the ASCII whitespace characters stripped by
`str.strip()`: space, tab, newline, carriage return, vertical tab,
form feed. -/
def pyIsSpace (c : Char) : Bool :=
  c == ' ' || c == '\t' || c == '\n' || c == '\r' ||
    c == Char.ofNat 11 || c == Char.ofNat 12

/-- Python `str.strip()`: remove leading and trailing whitespace. -/
def pyStrip (s : String) : String :=
  String.mk (((s.toList.dropWhile pyIsSpace).reverse.dropWhile pyIsSpace).reverse)

/-- Python `str.lower()` restricted to ASCII: map A-Z to a-z. -/
def pyLower (s : String) : String :=
  String.mk (s.toList.map Char.toLower)

/-- The pydantic context schema (src/app.py lines 36-39). -/
structure user_info where
  name : String
  is_premium : Bool
  issue_type : String
deriving Repr, DecidableEq

/-- The SDK's context wrapper: tools receive the user context through a
`.context` field (src/app.py, `RunContextWrapper[user_info]`). -/
structure RunContextWrapper (α : Type) where
  context : α
deriving Repr, DecidableEq

/-- An agent definition as far as the enablement lambdas see it: they
receive the agent under consideration and ignore it. -/
structure Agent where
  name : String
  instructions : String
deriving Repr, DecidableEq

/-- `is_enabled` lambda of the `refund` tool (src/app.py line 44):
`lambda ctx, agent: ctx.context.issue_type == "refund"`. -/
def refund_is_enabled (ctx : RunContextWrapper user_info) (_agent : Agent) : Bool :=
  ctx.context.issue_type == "refund"

/-- The `refund` tool body (src/app.py lines 46-50). -/
def refund (ctx : RunContextWrapper user_info) : String :=
  if ctx.context.is_premium then
    "Refund processed successfully for " ++ ctx.context.name ++ "."
  else
    ctx.context.name ++ ", you need a premium subscription to request a refund."

/-- `is_enabled` lambda of the `check_issue_type` tool (src/app.py line 53):
`lambda ctx, agent: not ctx.context.is_premium`. -/
def check_issue_type_is_enabled (ctx : RunContextWrapper user_info) (_agent : Agent) : Bool :=
  !ctx.context.is_premium

/-- The `check_issue_type` tool body (src/app.py lines 55-57). -/
def check_issue_type (ctx : RunContextWrapper user_info) : String :=
  ctx.context.issue_type

/-- `is_enabled` lambda of the `restart_service` tool (src/app.py line 60):
`lambda ctx, agent: ctx.context.issue_type == "technical"`. -/
def restart_service_is_enabled (ctx : RunContextWrapper user_info) (_agent : Agent) : Bool :=
  ctx.context.issue_type == "technical"

/-- The `restart_service` tool body (src/app.py lines 61-63). -/
def restart_service (ctx : RunContextWrapper user_info) : String :=
  "Technical service has been restarted for " ++ ctx.context.name ++ "."

/-- Python truthiness of `os.getenv` results: `None` and the empty
string are falsy, every non-empty string is truthy. -/
def pyTruthy (s : Option String) : Bool :=
  match s with
  | none => false
  | some k => !(k == "")

/-- Module-level API-key check (src/app.py lines 17-21): reads
`OPENAI_API_KEY` from the environment and raises `ValueError` when it
is unset or empty, before anything else runs. -/
def startup (openai_api_key : Option String) : Except String Unit :=
  if pyTruthy openai_api_key then Except.ok ()
  else Except.error "OPENAI_API_KEY not found in environment variables."

/-- The prompt shown for the first input of a turn (src/app.py line 109). -/
def userPrompt : String := " User Input: "

/-- Program start: the module-level API-key check runs at import time,
before `main` prints the banner and shows the first prompt
(src/app.py lines 17-21 and 105-109). On failure nothing has been
printed; on success the banner lines and the first prompt appear. -/
def programStart (openai_api_key : Option String) : Except String (List String) :=
  match startup openai_api_key with
  | Except.error e => Except.error e
  | Except.ok _ =>
      Except.ok ["\n Console Support Agent System Started!", "Type 'exit' to quit.\n", userPrompt]

/-- The issue-type prompt (src/app.py line 115). -/
def issuePrompt : String := "🔧 Enter issue type (technical / billing / refund): "

/-- The premium prompt (src/app.py line 116). -/
def premiumPrompt : String := " Are you a premium user? (yes / no): "

/-- The exit test of the session loop (src/app.py line 110):
`user_input.strip().lower() in ["exit", "quit"]`. -/
def exitRequested (user_input : String) : Bool :=
  pyLower (pyStrip user_input) == "exit" || pyLower (pyStrip user_input) == "quit"

/-- The premium answer mapping (src/app.py line 117):
`premium_input.strip().lower() in ["yes", "y"]`. -/
def premiumOf (premium_input : String) : Bool :=
  pyLower (pyStrip premium_input) == "yes" || pyLower (pyStrip premium_input) == "y"

/-- The context built each turn (src/app.py lines 115-123): the name is
the constant `"Areeba"`, the issue type is the stripped, lower-cased
second input, and the premium flag comes from the third input. -/
def mkContext (issue_type_input premium_input : String) : user_info :=
  { name := "Areeba"
  , is_premium := premiumOf premium_input
  , issue_type := pyLower (pyStrip issue_type_input) }

/-- Observable trace of a single turn of the session loop: the prompts
shown, the context handed to the runner (if any), and whether the loop
terminated. -/
structure TurnTrace where
  prompts : List String
  runnerCall : Option user_info
  exited : Bool
deriving Repr, DecidableEq

/-- One iteration of the session loop (src/app.py lines 108-132): show
the user prompt; if the first input requests exit, terminate without
further prompts or a runner call; otherwise show the two context
prompts, build the context, and invoke the runner with it. -/
def sessionTurn (user_input issue_type_input premium_input : String) : TurnTrace :=
  if exitRequested user_input then
    { prompts := [userPrompt], runnerCall := none, exited := true }
  else
    { prompts := [userPrompt, issuePrompt, premiumPrompt]
    , runnerCall := some (mkContext issue_type_input premium_input)
    , exited := false }

theorem exitRequested_iff (ui : String) :
    exitRequested ui = true ↔
      pyLower (pyStrip ui) = "exit" ∨ pyLower (pyStrip ui) = "quit" := by
  simp [exitRequested]

/-- C1: for every context, the refund tool returns exactly
"Refund processed successfully for <name>." when `is_premium` is true
and "<name>, you need a premium subscription to request a refund."
when it is false; in particular for name "Areeba" the two outputs are
the two exact strings of the claim. -/
theorem refund_output (ctx : RunContextWrapper user_info) :
    (ctx.context.is_premium = true →
      refund ctx = "Refund processed successfully for " ++ ctx.context.name ++ ".") ∧
    (ctx.context.is_premium = false →
      refund ctx = ctx.context.name ++ ", you need a premium subscription to request a refund.") ∧
    refund ⟨⟨"Areeba", true, "refund"⟩⟩ = "Refund processed successfully for Areeba." ∧
    refund ⟨⟨"Areeba", false, "refund"⟩⟩ =
      "Areeba, you need a premium subscription to request a refund." := by
  refine ⟨fun h => ?_, fun h => ?_, rfl, rfl⟩ <;> simp [refund, h]

theorem refund_output_witness :
    refund ⟨⟨"Areeba", true, "refund"⟩⟩ = "Refund processed successfully for Areeba." ∧
    refund ⟨⟨"Areeba", false, "refund"⟩⟩ =
      "Areeba, you need a premium subscription to request a refund." :=
  ⟨(refund_output ⟨⟨"Areeba", true, "refund"⟩⟩).1 rfl,
   (refund_output ⟨⟨"Areeba", false, "refund"⟩⟩).2.1 rfl⟩

/-- C2: the refund capability predicate is true iff the context's
issue_type equals "refund"; it is total, so every other value
(including empty or garbled strings) yields false without failing. -/
theorem refund_enabled_iff (ctx : RunContextWrapper user_info) (agent : Agent) :
    refund_is_enabled ctx agent = true ↔ ctx.context.issue_type = "refund" := by
  simp [refund_is_enabled]

theorem refund_enabled_iff_witness :
    refund_is_enabled ⟨⟨"Areeba", true, "refund"⟩⟩ ⟨"refund_agent", ""⟩ = true :=
  (refund_enabled_iff ⟨⟨"Areeba", true, "refund"⟩⟩ ⟨"refund_agent", ""⟩).mpr rfl

/-- C3: the check_issue_type capability predicate is true iff the
context's is_premium field is false. -/
theorem check_issue_type_enabled_iff (ctx : RunContextWrapper user_info) (agent : Agent) :
    check_issue_type_is_enabled ctx agent = true ↔ ctx.context.is_premium = false := by
  simp [check_issue_type_is_enabled]

theorem check_issue_type_enabled_iff_witness :
    check_issue_type_is_enabled ⟨⟨"Areeba", false, "billing"⟩⟩ ⟨"customer_support_agent", ""⟩ = true :=
  (check_issue_type_enabled_iff ⟨⟨"Areeba", false, "billing"⟩⟩
    ⟨"customer_support_agent", ""⟩).mpr rfl

/-- C4: the restart_service capability predicate is true iff the
context's issue_type equals "technical". -/
theorem restart_service_enabled_iff (ctx : RunContextWrapper user_info) (agent : Agent) :
    restart_service_is_enabled ctx agent = true ↔ ctx.context.issue_type = "technical" := by
  simp [restart_service_is_enabled]

theorem restart_service_enabled_iff_witness :
    restart_service_is_enabled ⟨⟨"Areeba", true, "technical"⟩⟩ ⟨"technical_agent", ""⟩ = true :=
  (restart_service_enabled_iff ⟨⟨"Areeba", true, "technical"⟩⟩ ⟨"technical_agent", ""⟩).mpr rfl

/-- C5: restart_service returns exactly
"Technical service has been restarted for <name>." for every context,
and in particular the exact string for name "Areeba". -/
theorem restart_service_output (ctx : RunContextWrapper user_info) :
    restart_service ctx = "Technical service has been restarted for " ++ ctx.context.name ++ "." ∧
    restart_service ⟨⟨"Areeba", true, "technical"⟩⟩ =
      "Technical service has been restarted for Areeba." :=
  ⟨rfl, rfl⟩

/-- C6 counterexample: the input " exit " (with surrounding spaces) is
not "exit" or "quit" after case folding alone, yet the loop terminates
on it without showing the further prompts or invoking the runner,
because the code strips whitespace before comparing. -/
theorem exit_strip_counterexample :
    pyLower " exit " ≠ "exit" ∧ pyLower " exit " ≠ "quit" ∧
    (sessionTurn " exit " "technical" "yes").exited = true ∧
    (sessionTurn " exit " "technical" "yes").runnerCall = none := by
  refine ⟨by decide, by decide, rfl, rfl⟩

/-- C6 amended: a turn terminates immediately — only the first prompt
shown, no runner call — iff the first input, after stripping
surrounding whitespace and case folding, is "exit" or "quit";
otherwise the turn shows the issue-type and premium prompts and
invokes the runner. -/
theorem sessionTurn_exit_iff (ui it pr : String) :
    ((sessionTurn ui it pr).exited = true ∧
     (sessionTurn ui it pr).prompts = [userPrompt] ∧
     (sessionTurn ui it pr).runnerCall = none
     ↔ pyLower (pyStrip ui) = "exit" ∨ pyLower (pyStrip ui) = "quit") ∧
    ((sessionTurn ui it pr).exited = false ∧
     (sessionTurn ui it pr).prompts = [userPrompt, issuePrompt, premiumPrompt] ∧
     (sessionTurn ui it pr).runnerCall = some (mkContext it pr)
     ↔ ¬(pyLower (pyStrip ui) = "exit" ∨ pyLower (pyStrip ui) = "quit")) := by
  have hiff := exitRequested_iff ui
  by_cases h : exitRequested ui = true
  · simp [sessionTurn, h, hiff.mp h]
  · have hP : ¬(pyLower (pyStrip ui) = "exit" ∨ pyLower (pyStrip ui) = "quit") :=
      fun p => h (hiff.mpr p)
    simp [sessionTurn, h, hP]

theorem sessionTurn_exit_iff_witness :
    (sessionTurn "QUIT" "technical" "yes").exited = true ∧
    (sessionTurn "QUIT" "technical" "yes").prompts = [userPrompt] ∧
    (sessionTurn "QUIT" "technical" "yes").runnerCall = none :=
  (sessionTurn_exit_iff "QUIT" "technical" "yes").1.mpr (by decide)

/-- C7 counterexample: the premium answer " yes " (with surrounding
spaces) is not "yes" or "y" after case folding alone, yet the built
context has is_premium = true, because the code strips whitespace
before comparing. -/
theorem premium_strip_counterexample :
    pyLower " yes " ≠ "yes" ∧ pyLower " yes " ≠ "y" ∧
    (sessionTurn "hello" "billing" " yes ").runnerCall =
      some ⟨"Areeba", true, "billing"⟩ := by
  refine ⟨by decide, by decide, by decide⟩

/-- C7 amended: for every turn the runner is invoked on, the context's
is_premium field is true iff the premium answer, after stripping
surrounding whitespace and case folding, is "yes" or "y"; every other
answer (including empty input) maps to false. -/
theorem context_premium_iff (ui it pr : String) (ctx : user_info)
    (h : (sessionTurn ui it pr).runnerCall = some ctx) :
    ctx.is_premium = true ↔
      pyLower (pyStrip pr) = "yes" ∨ pyLower (pyStrip pr) = "y" := by
  by_cases hex : exitRequested ui = true
  · simp [sessionTurn, hex] at h
  · simp [sessionTurn, hex] at h
    rw [← h]
    simp [mkContext, premiumOf]

theorem context_premium_iff_witness :
    (⟨"Areeba", true, "billing"⟩ : user_info).is_premium = true ↔
      pyLower (pyStrip "YES") = "yes" ∨ pyLower (pyStrip "YES") = "y" :=
  context_premium_iff "hello" "billing" "YES" ⟨"Areeba", true, "billing"⟩ (by decide)

/-- C8: startup fails with the fatal configuration error — and then no
banner or prompt is ever produced, since `programStart` only yields
its prompt list on the ok branch — iff OPENAI_API_KEY is unset or
empty. -/
theorem startup_failure_iff (key : Option String) :
    programStart key = Except.error "OPENAI_API_KEY not found in environment variables."
      ↔ key = none ∨ key = some "" := by
  cases key with
  | none => simp [programStart, startup, pyTruthy]
  | some k =>
      by_cases hk : k = "" <;> simp [programStart, startup, pyTruthy, hk]

theorem startup_failure_iff_witness :
    programStart none = Except.error "OPENAI_API_KEY not found in environment variables." :=
  (startup_failure_iff none).mpr (Or.inl rfl)

/-- C9: for every combination of console inputs, whenever a turn
invokes the runner, the context's name field is the constant "Areeba":
no user input influences the name seen by the tool functions. -/
theorem context_name_constant (ui it pr : String) (ctx : user_info)
    (h : (sessionTurn ui it pr).runnerCall = some ctx) :
    ctx.name = "Areeba" := by
  by_cases hex : exitRequested ui = true
  · simp [sessionTurn, hex] at h
  · simp [sessionTurn, hex] at h
    rw [← h]
    rfl

theorem context_name_constant_witness :
    (⟨"Areeba", false, "refund"⟩ : user_info).name = "Areeba" :=
  context_name_constant "hi" "refund" "no" ⟨"Areeba", false, "refund"⟩ (by decide)

/-- C10: the refund and restart_service capability predicates are
never both true for the same context: issue_type cannot equal both
"refund" and "technical". -/
theorem refund_restart_mutually_exclusive (ctx : RunContextWrapper user_info) (agent : Agent) :
    (refund_is_enabled ctx agent && restart_service_is_enabled ctx agent) = false := by
  simp only [refund_is_enabled, restart_service_is_enabled, Bool.and_eq_false_iff]
  by_cases h : ctx.context.issue_type = "refund"
  · right
    simp [h]
  · left
    simp [h]

end ConsoleAgent
